import Mathlib

/-!
Verification of the VultrDynamicDNS reconciliation core.

The development shallowly embeds the Python sources:
  * `vultr_api.py`   — DNS record model, record matching (`find_dns_record`),
    reconciliation (`update_or_create_dns_record`) including its TTL
    heuristics and TTL-fallback retry loop;
  * `ip_monitor.py`  — IP validation (`_validate_ip`) and change detection
    (`check_ip_change`);
  * `dns_updater.py` — per-target update driver (`update_all_domains`,
    `_update_single_domain`) and the cycle driver (`check_and_update`).

Provider HTTP calls are modelled by an oracle (`Provider`): each kind of
call (list / create / update) is answered by a function of its invocation
index, so one run of the embedded code against an oracle determines both
the sequence of requests issued (its `trace`) and every response.  Errors
raised by the API client (`VultrAPIError`) are modelled as `Except` with a
`String` message, mirroring Python exception propagation.
-/

deriving instance DecidableEq for Except

namespace VultrDDNS

/-- `DNSRecord` from `vultr_api.py`: provider id, record type, raw name,
value (`data`), TTL and optional priority. -/
structure DNSRecord where
  id : String
  type : String
  name : String
  data : String
  ttl : Nat
  priority : Option Int := none
  deriving DecidableEq

/-- The candidate-name list built inside `find_dns_record`
(`vultr_api.py` lines 150–155): for a non-empty subdomain the names
`[subdomain, subdomain.domain, subdomain.]`; for the root the names
`["", "@", domain, domain.]`.  Python truthiness of a string is emptiness. -/
def target_names (domain subdomain : String) : List String :=
  if subdomain ≠ "" then
    [subdomain, subdomain ++ "." ++ domain, subdomain ++ "."]
  else
    ["", "@", domain, domain ++ "."]

/-- The matching loop of `find_dns_record` (`vultr_api.py` lines 160–167),
applied to a given listing: return the first record whose `type` equals the
requested type and whose `name` is one of the candidate names, else `none`. -/
def find_dns_record (records : List DNSRecord)
    (domain subdomain record_type : String) : Option DNSRecord :=
  match records with
  | [] => none
  | r :: rest =>
    if r.type = record_type ∧ r.name ∈ target_names domain subdomain then
      some r
    else
      find_dns_record rest domain subdomain record_type

/-- A provider API call as issued on the wire by the client.  `updateRec`
carries the optional fields of the PATCH payload exactly as
`update_dns_record` builds it (`vultr_api.py` lines 117–137): a field that
is `none` is omitted from the payload. -/
inductive Call where
  | listRecs (domain : String)
  | createRec (domain name record_type data : String) (ttl : Nat)
      (priority : Option Int)
  | updateRec (domain record_id : String)
      (data name : Option String) (ttl : Option Nat) (priority : Option Int)
  deriving DecidableEq

/-- Oracle for the provider: the result of the n-th call of each kind.
`listQ n` answers the n-th `list_dns_records` request, `createQ n` the
n-th `create_dns_record` request (given its arguments), `updateQ n` the
n-th PATCH request.  An `Except.error` models a raised `VultrAPIError`
with its message. -/
structure Provider where
  listQ : Nat → Except String (List DNSRecord)
  createQ : Nat → String → String → String → String → Nat → Option Int →
      Except String DNSRecord
  updateQ : Nat → String → String → Option String → Option String →
      Option Nat → Option Int → Except String Unit

/-- Per-run client state: how many calls of each kind have been issued so
far, and the trace of requests put on the wire (a request is traced whether
or not it succeeds). -/
structure RunSt where
  nList : Nat
  nCreate : Nat
  nUpdate : Nat
  trace : List Call
  deriving DecidableEq

/-- Fresh client state at the start of an invocation. -/
def RunSt.init : RunSt := ⟨0, 0, 0, []⟩

/-- `list_dns_records` (`vultr_api.py` lines 89–93): issue the GET and
return the parsed records, or propagate the API error. -/
def list_dns_records (P : Provider) (st : RunSt) (domain : String) :
    RunSt × Except String (List DNSRecord) :=
  ({ st with nList := st.nList + 1, trace := st.trace ++ [Call.listRecs domain] },
   P.listQ st.nList)

/-- `create_dns_record` (`vultr_api.py` lines 100–115): issue the POST with
the given payload and return the created record, or propagate the error. -/
def create_dns_record (P : Provider) (st : RunSt)
    (domain name record_type data : String) (ttl : Nat) (priority : Option Int) :
    RunSt × Except String DNSRecord :=
  ({ st with
      nCreate := st.nCreate + 1
      trace := st.trace ++ [Call.createRec domain name record_type data ttl priority] },
   P.createQ st.nCreate domain name record_type data ttl priority)

/-- `update_dns_record` (`vultr_api.py` lines 117–137): build the PATCH
payload from the non-`none` arguments; if the payload is empty no request
is issued, otherwise issue the PATCH and propagate any error. -/
def update_dns_record (P : Provider) (st : RunSt)
    (domain record_id : String) (data name : Option String)
    (ttl : Option Nat) (priority : Option Int) :
    RunSt × Except String Unit :=
  if data = none ∧ name = none ∧ ttl = none ∧ priority = none then
    (st, Except.ok ())
  else
    ({ st with
        nUpdate := st.nUpdate + 1
        trace := st.trace ++ [Call.updateRec domain record_id data name ttl priority] },
     P.updateQ st.nUpdate domain record_id data name ttl priority)

/-- `leadMatch pat s`: `pat` occurs at the very start of `s`. -/
def leadMatch : List Char → List Char → Bool
  | [], _ => true
  | _ :: _, [] => false
  | p :: ps, c :: cs => p = c && leadMatch ps cs

/-- `hasSub pat s`: `pat` occurs contiguously somewhere in `s`. -/
def hasSub (pat : List Char) : List Char → Bool
  | [] => leadMatch pat []
  | c :: cs => leadMatch pat (c :: cs) || hasSub pat cs

/-- Python's `"TTL" in str(e)` test from `vultr_api.py` line 211. -/
def mentionsTTL (msg : String) : Bool :=
  hasSub ("TTL".data) msg.data

/-- The fixed fallback TTL list `common_ttls` of `vultr_api.py` line 213. -/
def common_ttls : List Nat := [3600, 1800, 7200, 300, 600]

/-- The `for try_ttl in common_ttls` retry loop of `vultr_api.py` lines
214–225: for each fallback TTL different from the TTL already tried,
attempt creation; return on the first success; when the list is exhausted
(or a fallback equals the tried TTL) re-raise `ttl_error`. -/
def ttl_fallback_loop (P : Provider) (st : RunSt)
    (domain name record_type ip_address : String) (ttl : Nat)
    (ttl_error : String) : List Nat → RunSt × Except String Unit
  | [] => (st, Except.error ttl_error)
  | try_ttl :: rest =>
    if try_ttl ≠ ttl then
      match create_dns_record P st domain name record_type ip_address try_ttl none with
      | (st', Except.ok _) => (st', Except.ok ())
      | (st', Except.error _) =>
        ttl_fallback_loop P st' domain name record_type ip_address ttl ttl_error rest
    else
      ttl_fallback_loop P st domain name record_type ip_address ttl ttl_error rest

/-- The `except VultrAPIError as e:` handler of `vultr_api.py` lines
203–225: re-attempt creation at the current value of `ttl`; if that raises
and its message mentions TTL, run the fallback loop, otherwise (and after
an exhausted loop) re-raise that second error. -/
def create_with_ttl_retry (P : Provider) (st : RunSt)
    (domain name record_type ip_address : String) (ttl : Nat) :
    RunSt × Except String Unit :=
  match create_dns_record P st domain name record_type ip_address ttl none with
  | (st', Except.ok _) => (st', Except.ok ())
  | (st', Except.error ttl_error) =>
    if mentionsTTL ttl_error then
      ttl_fallback_loop P st' domain name record_type ip_address ttl ttl_error common_ttls
    else
      (st', Except.error ttl_error)

/-- `update_or_create_dns_record` (`vultr_api.py` lines 169–225).
Look up the record via `find_dns_record` (one listing call; its failure
propagates).  If found with a different value, PATCH the value only; if
found with the desired value, do nothing.  If not found, list the domain's
records again; when that succeeds and is non-empty, replace the configured
TTL by the first listed record's TTL; then create.  Any `VultrAPIError`
raised inside this `try` block (from the second listing or from the
creation itself) lands in the handler `create_with_ttl_retry`, which
re-attempts creation at the current `ttl` and then walks the fallback
list. -/
def update_or_create_dns_record (P : Provider) (st : RunSt)
    (domain subdomain ip_address record_type : String) (ttl : Nat) :
    RunSt × Except String Unit :=
  match list_dns_records P st domain with
  | (st₁, Except.error e) => (st₁, Except.error e)
  | (st₁, Except.ok records) =>
    let name := if subdomain ≠ "" then subdomain else "@"
    match find_dns_record records domain subdomain record_type with
    | some existing_record =>
      if existing_record.data ≠ ip_address then
        update_dns_record P st₁ domain existing_record.id (some ip_address)
          none none none
      else
        (st₁, Except.ok ())
    | none =>
      match list_dns_records P st₁ domain with
      | (st₂, Except.error _) =>
        create_with_ttl_retry P st₂ domain name record_type ip_address ttl
      | (st₂, Except.ok all_records) =>
        let ttl' := match all_records with
          | [] => ttl
          | first :: _ => first.ttl
        match create_dns_record P st₂ domain name record_type ip_address ttl' none with
        | (st₃, Except.ok _) => (st₃, Except.ok ())
        | (st₃, Except.error _) =>
          create_with_ttl_retry P st₃ domain name record_type ip_address ttl'

/-- `DomainConfig` from `config.py`: one configured target. -/
structure DomainConfig where
  domain : String
  subdomain : String
  record_type : String := "A"
  ttl : Nat := 300
  deriving DecidableEq

/-- `DNSUpdateResult` from `dns_updater.py` lines 15–38 (the wall-clock
timestamp field is not modelled; no claim concerns it). -/
structure DNSUpdateResult where
  domain : String
  subdomain : String
  success : Bool
  old_ip : Option String := none
  new_ip : Option String := none
  error : Option String := none
  deriving DecidableEq

/-- `_update_single_domain` (`dns_updater.py` lines 73–116): find the
existing record to report its old value, then reconcile via
`update_or_create_dns_record`; a `VultrAPIError` from either step is caught
here and turned into a failed `DNSUpdateResult`, so it never escapes to the
caller. -/
def update_single_domain (P : Provider) (st : RunSt)
    (dc : DomainConfig) (ip_address : String) : RunSt × DNSUpdateResult :=
  match list_dns_records P st dc.domain with
  | (st₁, Except.error e) =>
    (st₁, { domain := dc.domain, subdomain := dc.subdomain, success := false,
            error := some e })
  | (st₁, Except.ok records) =>
    let old_ip := (find_dns_record records dc.domain dc.subdomain dc.record_type).map
      (fun r => r.data)
    match update_or_create_dns_record P st₁ dc.domain dc.subdomain ip_address
        dc.record_type dc.ttl with
    | (st₂, Except.ok _) =>
      (st₂, { domain := dc.domain, subdomain := dc.subdomain, success := true,
              old_ip := old_ip, new_ip := some ip_address })
    | (st₂, Except.error e) =>
      (st₂, { domain := dc.domain, subdomain := dc.subdomain, success := false,
              error := some e })

/-- `update_all_domains` (`dns_updater.py` lines 50–71): process every
configured target in order, appending each result both to the returned
list and to `self.update_history`.  Returns (client state, this cycle's
results, new history). -/
def update_all_domains (P : Provider) (st : RunSt)
    (domains : List DomainConfig) (ip_address : String)
    (history : List DNSUpdateResult) :
    RunSt × List DNSUpdateResult × List DNSUpdateResult :=
  match domains with
  | [] => (st, [], history)
  | dc :: rest =>
    let (st₁, result) := update_single_domain P st dc ip_address
    let (st₂, results, history') :=
      update_all_domains P st₁ rest ip_address (history ++ [result])
    (st₂, result :: results, history')

/-- `IPMonitor` state (`ip_monitor.py` lines 26–29): last resolved address,
last check time, last successful update time.  Times are abstract `Nat`
instants. -/
structure Monitor where
  current_ip : Option String := none
  last_check : Option Nat := none
  last_update : Option Nat := none
  deriving DecidableEq

/-- `check_ip_change` (`ip_monitor.py` lines 77–102).  `resolved` is the
value returned by `get_public_ip` (`none` when every echo service failed).
Returns the updated monitor state and the pair `(has_changed, new_ip)`. -/
def check_ip_change (m : Monitor) (resolved : Option String) (now : Nat) :
    Monitor × Bool × Option String :=
  let m₁ := { m with last_check := some now }
  match resolved with
  | none => (m₁, false, none)
  | some new_ip =>
    match m₁.current_ip with
    | none => ({ m₁ with current_ip := some new_ip }, true, some new_ip)
    | some cur =>
      if new_ip ≠ cur then
        ({ m₁ with current_ip := some new_ip }, true, some new_ip)
      else
        (m₁, false, some new_ip)

/-- The outcome of one `check_and_update` cycle: final client state (its
trace lists every provider call issued during the cycle), monitor state,
update history, and the returned boolean. -/
structure CycleOut where
  st : RunSt
  monitor : Monitor
  history : List DNSUpdateResult
  ok : Bool
  deriving DecidableEq

/-- `check_and_update` (`dns_updater.py` lines 118–146): detect a change;
when one is detected (and the new address is truthy, i.e. a non-empty
string), update every target, count successes, and return `true` exactly
when every target succeeded, advancing `last_update` in that case only;
when no change is detected (including failed resolution) return `true`
without any provider call. -/
def check_and_update (P : Provider) (st : RunSt) (m : Monitor)
    (domains : List DomainConfig) (resolved : Option String) (now : Nat)
    (history : List DNSUpdateResult) : CycleOut :=
  let (m₁, has_changed, new_ip) := check_ip_change m resolved now
  match has_changed, new_ip with
  | true, some ip =>
    if ip ≠ "" then
      let (st', results, history') := update_all_domains P st domains ip history
      let success_count := results.countP (fun r => r.success)
      if success_count = results.length then
        ⟨st', { m₁ with last_update := some now }, history', true⟩
      else
        ⟨st', m₁, history', false⟩
    else
      ⟨st, m₁, history, true⟩
  | _, _ => ⟨st, m₁, history, true⟩

/-- ASCII whitespace stripped by Python's `int(str)` conversion. -/
def pyWs (c : Char) : Bool :=
  c = ' ' || c = '\t' || c = '\n' || c = '\x0d' || c = '\x0b' || c = '\x0c'

/-- Digit run of a Python integer literal after the optional sign: ASCII
digits with single underscores allowed between digits (`1_0` is `10`;
leading, trailing or doubled underscores are errors).  `acc` is the value
of the digits consumed so far.  (Python also accepts non-ASCII Unicode
digits; the model restricts to ASCII.) -/
def pyDigitsCore (acc : Nat) : List Char → Option Nat
  | [] => some acc
  | '_' :: c :: cs =>
    if c.isDigit then pyDigitsCore (acc * 10 + (c.toNat - 48)) cs else none
  | '_' :: [] => none
  | c :: cs =>
    if c.isDigit then pyDigitsCore (acc * 10 + (c.toNat - 48)) cs else none

/-- Nonempty digit run with underscore rules; the whole list must be
consumed. -/
def pyDigits : List Char → Option Nat
  | [] => none
  | '_' :: _ => none
  | c :: cs => if c.isDigit then pyDigitsCore (c.toNat - 48) cs else none

/-- Python `int(s)`: optional surrounding whitespace, optional sign, then
a digit run; `none` models a raised `ValueError`. -/
def pyInt (s : String) : Option Int :=
  let cs := (s.data.dropWhile pyWs).reverse.dropWhile pyWs |>.reverse
  match cs with
  | '+' :: rest => (pyDigits rest).map (fun n => (n : Int))
  | '-' :: rest => (pyDigits rest).map (fun n => -(n : Int))
  | rest => (pyDigits rest).map (fun n => (n : Int))

/-- The IPv4 loop of `_validate_ip` (`ip_monitor.py` lines 63–68), run on
the four dot-parts: `some b` is a normal return of `b`, `none` a
`ValueError` escaping from `int(part)` (caught further out, yielding
`False`). -/
def octet_loop : List String → Option Bool
  | [] => some true
  | p :: ps =>
    match pyInt p with
    | none => none
    | some num => if num < 0 ∨ 255 < num then some false else octet_loop ps

/-- Split a character list at every leftmost, non-overlapping occurrence
of the (non-empty) separator, keeping empty fields — the field behaviour
of Python's `str.split(sep)`.  `fuel` bounds the recursion and is
instantiated with the list length. -/
def splitGo (sep : List Char) : Nat → List Char → List (List Char)
  | _, [] => [[]]
  | 0, cs => [cs]
  | fuel + 1, c :: rest =>
    if leadMatch sep (c :: rest) then
      [] :: splitGo sep fuel (List.drop (sep.length - 1) rest)
    else
      match splitGo sep fuel rest with
      | [] => [[c]]
      | h :: t => (c :: h) :: t

/-- Split at a separator (field semantics of Python's `str.split`). -/
def splitSep (sep : List Char) (cs : List Char) : List (List Char) :=
  splitGo sep cs.length cs

/-- `ip.split('.')` from `ip_monitor.py` line 62. -/
def pySplitDots (s : String) : List String :=
  (splitSep ['.'] s.data).map String.mk

/-- Value of a digit run (digits already checked). -/
def digitsVal (cs : List Char) : Nat :=
  cs.foldl (fun a c => a * 10 + (c.toNat - 48)) 0

/-- One hexadecimal group of an IPv6 address: one to four hex digits. -/
def isHexGroup (t : String) : Bool :=
  decide (1 ≤ t.length) && decide (t.length ≤ 4) &&
    t.data.all (fun c => c.isDigit || ('a' ≤ c && c ≤ 'f') || ('A' ≤ c && c ≤ 'F'))

/-- One octet of the dotted-quad tail as `inet_pton(AF_INET)` accepts it:
bare decimal digits, value at most 255, no leading zero on a multi-digit
octet, at most three digits. -/
def ptonV4Octet (t : String) : Bool :=
  match t.data with
  | [] => false
  | c :: cs =>
    c.isDigit && cs.all Char.isDigit && decide (t.length ≤ 3) &&
      (!(c = '0' && !(cs = []))) &&
      decide (digitsVal t.data ≤ 255)

/-- Dotted-quad tail of an IPv6 address: exactly four octets. -/
def ptonV4 (t : String) : Bool :=
  match (splitSep ['.'] t.data).map String.mk with
  | [a, b, c, d] => ptonV4Octet a && ptonV4Octet b && ptonV4Octet c && ptonV4Octet d
  | _ => false

/-- Count the 16-bit groups encoded by a colon-separated token list.
`atEnd` is true when the list ends the whole address, which is the only
position where a dotted-quad (worth two groups) may appear.  `none` means
a malformed token. -/
def groupCount (atEnd : Bool) : List String → Option Nat
  | [] => some 0
  | [t] =>
    if t.data.contains '.' then
      if atEnd && ptonV4 t then some 2 else none
    else if isHexGroup t then some 1 else none
  | t :: ts =>
    if isHexGroup t then (groupCount atEnd ts).map (fun n => n + 1) else none

/-- Split a side of `::` into its colon-separated tokens; an empty side has
no tokens. -/
def colonTokens (part : String) : List String :=
  if part = "" then [] else (splitSep [':'] part.data).map String.mk

/-- `socket.inet_pton(AF_INET6, s)` modelled after the C library parser:
without `::` exactly eight groups are required; with a single `::` the
explicit groups must number at most seven (the gap expands to at least one
zero group); a dotted-quad may stand for the final two groups. -/
def inet_pton6 (s : String) : Bool :=
  match (splitSep [':', ':'] s.data).map String.mk with
  | [whole] =>
    match groupCount true (colonTokens whole) with
    | some n => decide (n = 8)
    | none => false
  | [l, r] =>
    match groupCount false (colonTokens l), groupCount true (colonTokens r) with
    | some a, some b => decide (a + b ≤ 7)
    | _, _ => false
  | _ => false

/-- `_validate_ip` (`ip_monitor.py` lines 58–75): split on dots; with
exactly four parts run the octet loop (a `ValueError` from `int` is caught
and yields `False`, and the IPv6 branch is never reached); with any other
number of parts fall through to `inet_pton` for IPv6 (its `socket.error`
is caught and yields `False`). -/
def validate_ip (ip : String) : Bool :=
  let parts := pySplitDots ip
  if parts.length = 4 then
    match octet_loop parts with
    | some b => b
    | none => false
  else
    inet_pton6 ip

/-- The spec's IPv4 shape: four dot-separated decimal octets, each a bare
digit string whose value is in [0,255]. -/
def isIPv4Spec (s : String) : Bool :=
  let parts := pySplitDots s
  decide (parts.length = 4) && parts.all (fun p =>
    !(p.data = []) && p.data.all Char.isDigit && decide (digitsVal p.data ≤ 255))

/-- A record matches the lookup for `(domain, subdomain, record_type)`. -/
def recMatches (domain subdomain record_type : String) (r : DNSRecord) : Prop :=
  r.type = record_type ∧ r.name ∈ target_names domain subdomain

instance (domain subdomain record_type : String) (r : DNSRecord) :
    Decidable (recMatches domain subdomain record_type r) := by
  unfold recMatches; infer_instance

lemma find_dns_record_some_split (d s t : String) :
    ∀ (records : List DNSRecord) (r : DNSRecord),
      find_dns_record records d s t = some r →
      ∃ l₁ l₂, records = l₁ ++ r :: l₂ ∧ recMatches d s t r ∧
        ∀ r' ∈ l₁, ¬ recMatches d s t r' := by
  intro records
  induction records with
  | nil => intro r h; simp [find_dns_record] at h
  | cons x rest ih =>
    intro r h
    by_cases hx : x.type = t ∧ x.name ∈ target_names d s
    · rw [find_dns_record, if_pos hx] at h
      obtain rfl : x = r := Option.some.inj h
      exact ⟨[], rest, rfl, hx, by simp⟩
    · rw [find_dns_record, if_neg hx] at h
      obtain ⟨l₁, l₂, hEq, hr, hnone⟩ := ih r h
      refine ⟨x :: l₁, l₂, by rw [hEq]; rfl, hr, ?_⟩
      intro r' hr'
      rcases List.mem_cons.mp hr' with rfl | hmem
      · exact hx
      · exact hnone r' hmem

lemma find_dns_record_none_iff (d s t : String) :
    ∀ records : List DNSRecord,
      (find_dns_record records d s t = none ↔
        ∀ r ∈ records, ¬ recMatches d s t r) := by
  intro records
  induction records with
  | nil => simp [find_dns_record]
  | cons x rest ih =>
    by_cases hx : x.type = t ∧ x.name ∈ target_names d s
    · rw [find_dns_record, if_pos hx]
      simp only [List.mem_cons]
      constructor
      · intro h; cases h
      · intro h; exact absurd hx (h x (Or.inl rfl))
    · rw [find_dns_record, if_neg hx]
      rw [ih]
      constructor
      · intro h r hr
        rcases List.mem_cons.mp hr with rfl | hmem
        · exact hx
        · exact h r hmem
      · intro h r hr; exact h r (List.mem_cons_of_mem x hr)

lemma target_names_cases (d s : String) :
    target_names d s =
      if s = "" then ["", "@", d, d ++ "."] else [s, s ++ "." ++ d, s ++ "."] := by
  by_cases hs : s = "" <;> simp [target_names, hs]

/-- **C1.** For every listing, domain, subdomain and record kind,
`find_dns_record` returns a record only when it is the first one in the
listing whose kind equals the requested kind and whose name lies in the
candidate set — `{subdomain, subdomain.domain, subdomain.}` for a
non-empty subdomain, `{"", "@", domain, domain.}` for the root — it
returns `none` exactly when no record matches, and for
subdomain = "blog", domain = "example.com" a record named "bloggy" is
never returned. -/
theorem find_dns_record_matches_first
    (records : List DNSRecord) (domain subdomain record_type : String) :
    (∀ r, find_dns_record records domain subdomain record_type = some r →
      ∃ l₁ l₂, records = l₁ ++ r :: l₂ ∧
        (r.type = record_type ∧
          r.name ∈ (if subdomain = "" then ["", "@", domain, domain ++ "."]
            else [subdomain, subdomain ++ "." ++ domain, subdomain ++ "."])) ∧
        ∀ r' ∈ l₁, ¬ (r'.type = record_type ∧
          r'.name ∈ (if subdomain = "" then ["", "@", domain, domain ++ "."]
            else [subdomain, subdomain ++ "." ++ domain, subdomain ++ "."]))) ∧
    (find_dns_record records domain subdomain record_type = none ↔
      ∀ r ∈ records, ¬ (r.type = record_type ∧
        r.name ∈ (if subdomain = "" then ["", "@", domain, domain ++ "."]
          else [subdomain, subdomain ++ "." ++ domain, subdomain ++ "."]))) ∧
    (∀ r, r.name = "bloggy" →
      find_dns_record records "example.com" "blog" record_type ≠ some r) := by
  have hcand : ∀ r : DNSRecord,
      recMatches domain subdomain record_type r ↔
      (r.type = record_type ∧
        r.name ∈ (if subdomain = "" then ["", "@", domain, domain ++ "."]
          else [subdomain, subdomain ++ "." ++ domain, subdomain ++ "."])) := by
    intro r
    rw [recMatches, target_names_cases]
  refine ⟨?_, ?_, ?_⟩
  · intro r h
    obtain ⟨l₁, l₂, hEq, hr, hnone⟩ :=
      find_dns_record_some_split domain subdomain record_type records r h
    exact ⟨l₁, l₂, hEq, (hcand r).mp hr,
      fun r' hr' hm => hnone r' hr' ((hcand r').mpr hm)⟩
  · rw [find_dns_record_none_iff]
    constructor
    · intro h r hr hm; exact h r hr ((hcand r).mpr hm)
    · intro h r hr hm; exact h r hr ((hcand r).mp hm)
  · intro r hname h
    obtain ⟨_, _, _, hr, _⟩ :=
      find_dns_record_some_split "example.com" "blog" record_type records r h
    have : r.name ∈ target_names "example.com" "blog" := hr.2
    rw [hname] at this
    simp [target_names] at this

/-- Witness for C1 at a concrete listing: a record named "bloggy" of the
requested type is skipped and the later record named "blog" is found. -/
theorem find_dns_record_matches_first_witness :
    find_dns_record
      [⟨"r1", "A", "bloggy", "9.9.9.9", 300, none⟩,
       ⟨"r2", "A", "blog", "1.2.3.4", 300, none⟩]
      "example.com" "blog" "A" = some ⟨"r2", "A", "blog", "1.2.3.4", 300, none⟩ ∧
    (∃ l₁ l₂,
      [(⟨"r1", "A", "bloggy", "9.9.9.9", 300, none⟩ : DNSRecord),
       ⟨"r2", "A", "blog", "1.2.3.4", 300, none⟩] =
        l₁ ++ (⟨"r2", "A", "blog", "1.2.3.4", 300, none⟩ : DNSRecord) :: l₂ ∧
      ((String.mk ['A'] = "A" ∧
        "blog" ∈ (if ("blog" : String) = "" then ["", "@", "example.com", "example.com" ++ "."]
          else ["blog", "blog" ++ "." ++ "example.com", "blog" ++ "."])) ∧
      ∀ r' ∈ l₁, ¬ (r'.type = "A" ∧
        r'.name ∈ (if ("blog" : String) = "" then ["", "@", "example.com", "example.com" ++ "."]
          else ["blog", "blog" ++ "." ++ "example.com", "blog" ++ "."])))) := by
  constructor
  · decide
  · have h := (find_dns_record_matches_first
      [⟨"r1", "A", "bloggy", "9.9.9.9", 300, none⟩,
       ⟨"r2", "A", "blog", "1.2.3.4", 300, none⟩] "example.com" "blog" "A").1
      ⟨"r2", "A", "blog", "1.2.3.4", 300, none⟩ (by decide)
    obtain ⟨l₁, l₂, hEq, hr, hnone⟩ := h
    exact ⟨l₁, l₂, hEq, hr, hnone⟩

/-- Is a trace entry a PATCH (update) request? -/
def isUpdateCall : Call → Bool
  | Call.updateRec _ _ _ _ _ _ => true
  | _ => false

/-- Is a trace entry a POST (create) request? -/
def isCreateCall : Call → Bool
  | Call.createRec _ _ _ _ _ _ => true
  | _ => false

/-- Number of update requests in a trace. -/
def countUpdates (tr : List Call) : Nat := tr.countP isUpdateCall

/-- Number of create requests in a trace. -/
def countCreates (tr : List Call) : Nat := tr.countP isCreateCall

/-- Number of create requests carrying a given TTL in a trace. -/
def countCreatesAtTTL (tr : List Call) (ttl : Nat) : Nat :=
  tr.countP (fun c => match c with
    | Call.createRec _ _ _ _ t _ => t = ttl
    | _ => false)

/-- **C5.** Reconciliation is idempotent.  When the lookup finds a record
whose value already equals the desired address, `update_or_create_dns_record`
issues no update and no create request; hence in two consecutive
invocations — the first finding a stale record, the provider answering the
second lookup with the updated value — exactly one update request is
issued overall and no create request at all. -/
theorem update_or_create_idempotent
    (P₁ P₂ : Provider) (domain subdomain ip record_type : String) (ttl : Nat)
    (rs₁ rs₂ : List DNSRecord) (r₁ r₂ : DNSRecord)
    (h₁ : P₁.listQ 0 = Except.ok rs₁)
    (hf₁ : find_dns_record rs₁ domain subdomain record_type = some r₁)
    (hne : r₁.data ≠ ip)
    (h₂ : P₂.listQ 0 = Except.ok rs₂)
    (hf₂ : find_dns_record rs₂ domain subdomain record_type = some r₂)
    (heq : r₂.data = ip) :
    countUpdates (update_or_create_dns_record P₁ RunSt.init
        domain subdomain ip record_type ttl).1.trace = 1 ∧
    countCreates (update_or_create_dns_record P₁ RunSt.init
        domain subdomain ip record_type ttl).1.trace = 0 ∧
    countUpdates (update_or_create_dns_record P₂ RunSt.init
        domain subdomain ip record_type ttl).1.trace = 0 ∧
    countCreates (update_or_create_dns_record P₂ RunSt.init
        domain subdomain ip record_type ttl).1.trace = 0 := by
  have t₁ : (update_or_create_dns_record P₁ RunSt.init
      domain subdomain ip record_type ttl).1.trace
      = [Call.listRecs domain,
         Call.updateRec domain r₁.id (some ip) none none none] := by
    simp [update_or_create_dns_record, list_dns_records, RunSt.init, h₁, hf₁,
      hne, update_dns_record]
  have t₂ : (update_or_create_dns_record P₂ RunSt.init
      domain subdomain ip record_type ttl).1.trace = [Call.listRecs domain] := by
    simp [update_or_create_dns_record, list_dns_records, RunSt.init, h₂, hf₂, heq]
  rw [t₁, t₂]
  simp [countUpdates, countCreates, isUpdateCall, isCreateCall, List.countP_cons]

/-- Witness for C5: stale record on the first lookup, fresh record on the
second. -/
theorem update_or_create_idempotent_witness :
    countUpdates (update_or_create_dns_record
        ⟨fun _ => Except.ok [⟨"r1", "A", "www", "9.9.9.9", 300, none⟩],
         fun _ _ _ _ _ _ _ => Except.error "unused",
         fun _ _ _ _ _ _ _ => Except.ok ()⟩ RunSt.init
        "example.com" "www" "1.2.3.4" "A" 300).1.trace = 1 ∧
    countCreates (update_or_create_dns_record
        ⟨fun _ => Except.ok [⟨"r1", "A", "www", "9.9.9.9", 300, none⟩],
         fun _ _ _ _ _ _ _ => Except.error "unused",
         fun _ _ _ _ _ _ _ => Except.ok ()⟩ RunSt.init
        "example.com" "www" "1.2.3.4" "A" 300).1.trace = 0 ∧
    countUpdates (update_or_create_dns_record
        ⟨fun _ => Except.ok [⟨"r1", "A", "www", "1.2.3.4", 300, none⟩],
         fun _ _ _ _ _ _ _ => Except.error "unused",
         fun _ _ _ _ _ _ _ => Except.ok ()⟩ RunSt.init
        "example.com" "www" "1.2.3.4" "A" 300).1.trace = 0 ∧
    countCreates (update_or_create_dns_record
        ⟨fun _ => Except.ok [⟨"r1", "A", "www", "1.2.3.4", 300, none⟩],
         fun _ _ _ _ _ _ _ => Except.error "unused",
         fun _ _ _ _ _ _ _ => Except.ok ()⟩ RunSt.init
        "example.com" "www" "1.2.3.4" "A" 300).1.trace = 0 :=
  update_or_create_idempotent _ _ "example.com" "www" "1.2.3.4" "A" 300
    [⟨"r1", "A", "www", "9.9.9.9", 300, none⟩]
    [⟨"r1", "A", "www", "1.2.3.4", 300, none⟩]
    ⟨"r1", "A", "www", "9.9.9.9", 300, none⟩
    ⟨"r1", "A", "www", "1.2.3.4", 300, none⟩
    rfl (by decide) (by decide) rfl (by decide) (by decide)

/-- Modelled from the spec: the provider-side semantics of a PATCH request
(the server itself is not part of this repository).  Per the wire contract,
a PATCH overwrites exactly the fields present in the payload and leaves
every omitted field unchanged. -/
def applyPatch (r : DNSRecord) (data name : Option String)
    (ttl : Option Nat) (priority : Option Int) : DNSRecord :=
  { r with
      data := data.getD r.data
      name := name.getD r.name
      ttl := ttl.getD r.ttl
      priority := match priority with
        | none => r.priority
        | some p => some p }

/-- **C7.** When reconciliation finds an existing record whose value
differs from the desired address, the cycle consists of the lookup's
listing request followed by a single PATCH whose payload contains the new
value only — no TTL, name or priority field — and no create request;
consequently, under the wire contract's PATCH semantics, the record keeps
its current TTL (and name and priority) whatever the configured TTL is. -/
theorem update_or_create_patches_value_only
    (P : Provider) (domain subdomain ip record_type : String) (ttl : Nat)
    (rs : List DNSRecord) (r : DNSRecord)
    (hl : P.listQ 0 = Except.ok rs)
    (hf : find_dns_record rs domain subdomain record_type = some r)
    (hne : r.data ≠ ip) :
    (update_or_create_dns_record P RunSt.init
        domain subdomain ip record_type ttl).1.trace
      = [Call.listRecs domain,
         Call.updateRec domain r.id (some ip) none none none] ∧
    applyPatch r (some ip) none none none
      = { r with data := ip } := by
  constructor
  · simp [update_or_create_dns_record, list_dns_records, RunSt.init, hl, hf,
      hne, update_dns_record]
  · simp [applyPatch]

/-- Witness for C7: configured TTL 60 differs from the record's TTL 300;
the PATCH carries only the value and patching preserves TTL 300. -/
theorem update_or_create_patches_value_only_witness :
    (update_or_create_dns_record
        ⟨fun _ => Except.ok [⟨"r1", "A", "www", "9.9.9.9", 300, none⟩],
         fun _ _ _ _ _ _ _ => Except.error "unused",
         fun _ _ _ _ _ _ _ => Except.ok ()⟩ RunSt.init
        "example.com" "www" "1.2.3.4" "A" 60).1.trace
      = [Call.listRecs "example.com",
         Call.updateRec "example.com" "r1" (some "1.2.3.4") none none none] ∧
    applyPatch ⟨"r1", "A", "www", "9.9.9.9", 300, none⟩
        (some "1.2.3.4") none none none
      = ⟨"r1", "A", "www", "1.2.3.4", 300, none⟩ :=
  update_or_create_patches_value_only _ "example.com" "www" "1.2.3.4" "A" 60
    [⟨"r1", "A", "www", "9.9.9.9", 300, none⟩]
    ⟨"r1", "A", "www", "9.9.9.9", 300, none⟩
    rfl (by decide) (by decide)

/-- **C8.** When reconciliation finds no existing record and the second
listing of the domain succeeds, the creation request uses the TTL of the
first listed record when the listing is non-empty and the configured TTL
when it is empty; with a successful creation the cycle is exactly the two
listing requests followed by that one create request, and it succeeds. -/
theorem update_or_create_inherits_domain_ttl
    (P : Provider) (domain subdomain ip record_type nm : String) (ttl ttl' : Nat)
    (rs rs₂ : List DNSRecord) (rec : DNSRecord)
    (hname : nm = if subdomain = "" then "@" else subdomain)
    (httl : ttl' = (match rs₂ with | [] => ttl | first :: _ => first.ttl))
    (hl0 : P.listQ 0 = Except.ok rs)
    (hf : find_dns_record rs domain subdomain record_type = none)
    (hl1 : P.listQ 1 = Except.ok rs₂)
    (hc : P.createQ 0 domain nm record_type ip ttl' none = Except.ok rec) :
    (update_or_create_dns_record P RunSt.init
        domain subdomain ip record_type ttl).1.trace
      = [Call.listRecs domain, Call.listRecs domain,
         Call.createRec domain nm record_type ip ttl' none] ∧
    (update_or_create_dns_record P RunSt.init
        domain subdomain ip record_type ttl).2 = Except.ok () := by
  subst hname
  cases rs₂ with
  | nil =>
    simp only [] at httl
    subst httl
    constructor <;>
      simp [update_or_create_dns_record, list_dns_records, RunSt.init, hl0, hf,
        hl1, create_dns_record, hc]
  | cons first rest =>
    simp only [] at httl
    subst httl
    constructor <;>
      simp [update_or_create_dns_record, list_dns_records, RunSt.init, hl0, hf,
        hl1, create_dns_record, hc]

/-- Witness for C8: configured TTL 300, the domain already holds a record
with TTL 7200, so the new record is created with TTL 7200. -/
theorem update_or_create_inherits_domain_ttl_witness :
    (update_or_create_dns_record
        ⟨fun _ => Except.ok [⟨"m1", "MX", "mail", "5.6.7.8", 7200, some 10⟩],
         fun _ _ _ _ _ t _ => Except.ok ⟨"new", "A", "www", "1.2.3.4", t, none⟩,
         fun _ _ _ _ _ _ _ => Except.ok ()⟩ RunSt.init
        "example.com" "www" "1.2.3.4" "A" 300).1.trace
      = [Call.listRecs "example.com", Call.listRecs "example.com",
         Call.createRec "example.com" "www" "A" "1.2.3.4" 7200 none] ∧
    (update_or_create_dns_record
        ⟨fun _ => Except.ok [⟨"m1", "MX", "mail", "5.6.7.8", 7200, some 10⟩],
         fun _ _ _ _ _ t _ => Except.ok ⟨"new", "A", "www", "1.2.3.4", t, none⟩,
         fun _ _ _ _ _ _ _ => Except.ok ()⟩ RunSt.init
        "example.com" "www" "1.2.3.4" "A" 300).2 = Except.ok () :=
  update_or_create_inherits_domain_ttl _ "example.com" "www" "1.2.3.4" "A"
    "www" 300 7200
    [⟨"m1", "MX", "mail", "5.6.7.8", 7200, some 10⟩]
    [⟨"m1", "MX", "mail", "5.6.7.8", 7200, some 10⟩]
    ⟨"new", "A", "www", "1.2.3.4", 7200, none⟩
    (by decide) (by decide) rfl (by decide) rfl rfl

/-- A provider with no records whose create endpoint rejects every TTL
except 3600 with a TTL-related error message. -/
def ttlRejectingProvider : Provider :=
  ⟨fun _ => Except.ok [],
   fun _ _ _ _ _ t _ =>
     if t = 3600 then Except.ok ⟨"new", "A", "www", "1.2.3.4", 3600, none⟩
     else Except.error "Invalid TTL value",
   fun _ _ _ _ _ _ _ => Except.ok ()⟩

/-- Counterexample to C2 as stated.  Against `ttlRejectingProvider`, with
no existing record and creation failing at the configured TTL 300 with a
TTL-related error, reconciliation does succeed at TTL 3600 — but it issues
the creation request at TTL 300 twice, not once: the first failure is
caught by the handler for listing failures, which re-attempts the same TTL
before the fallback list is consulted.  This contradicts the claim's
"retried at TTL=3600 without re-attempting 300". -/
theorem update_or_create_reattempts_tried_ttl_cex :
    countCreatesAtTTL (update_or_create_dns_record ttlRejectingProvider
        RunSt.init "example.com" "www" "1.2.3.4" "A" 300).1.trace 300 = 2 ∧
    ¬ (countCreatesAtTTL (update_or_create_dns_record ttlRejectingProvider
        RunSt.init "example.com" "www" "1.2.3.4" "A" 300).1.trace 300 ≤ 1) ∧
    countCreatesAtTTL (update_or_create_dns_record ttlRejectingProvider
        RunSt.init "example.com" "www" "1.2.3.4" "A" 300).1.trace 3600 = 1 ∧
    (update_or_create_dns_record ttlRejectingProvider
        RunSt.init "example.com" "www" "1.2.3.4" "A" 300).2 = Except.ok () := by
  decide

/-- A provider with no records whose create endpoint rejects every TTL
with a TTL-related error message. -/
def ttlAlwaysRejectingProvider : Provider :=
  ⟨fun _ => Except.ok [],
   fun _ _ _ _ _ _ _ => Except.error "Invalid TTL value",
   fun _ _ _ _ _ _ _ => Except.ok ()⟩

lemma ttl_fallback_loop_all_fail
    (P : Provider) (domain nm record_type ip : String) (ttl : Nat)
    (ttl_error : String) :
    ∀ (ts : List Nat) (st : RunSt),
      (∀ i t, (ts.filter (fun u => u ≠ ttl)).get? i = some t →
        ∃ e, P.createQ (st.nCreate + i) domain nm record_type ip t none
          = Except.error e) →
      ttl_fallback_loop P st domain nm record_type ip ttl ttl_error ts
        = ({ st with
              nCreate := st.nCreate + (ts.filter (fun u => u ≠ ttl)).length
              trace := st.trace ++ (ts.filter (fun u => u ≠ ttl)).map
                (fun u => Call.createRec domain nm record_type ip u none) },
           Except.error ttl_error) := by
  intro ts
  induction ts with
  | nil =>
    intro st _
    simp [ttl_fallback_loop]
  | cons t ts ih =>
    intro st h
    by_cases ht : t = ttl
    · have hfilter : (t :: ts).filter (fun u => u ≠ ttl)
          = ts.filter (fun u => u ≠ ttl) := by
        simp [List.filter_cons, ht]
      rw [ttl_fallback_loop, if_neg (not_not.mpr ht)]
      rw [hfilter] at h
      rw [ih st h, hfilter]
    · have hfilter : (t :: ts).filter (fun u => u ≠ ttl)
          = t :: ts.filter (fun u => u ≠ ttl) := by
        simp [List.filter_cons, ht]
      obtain ⟨e, he⟩ := h 0 t (by rw [hfilter]; rfl)
      rw [Nat.add_zero] at he
      rw [ttl_fallback_loop, if_pos ht]
      simp only [create_dns_record, he]
      have h' : ∀ i u, (ts.filter (fun u => u ≠ ttl)).get? i = some u →
          ∃ e, P.createQ (st.nCreate + 1 + i) domain nm record_type ip u none
            = Except.error e := by
        intro i u hu
        obtain ⟨e', he'⟩ := h (i + 1) u (by rw [hfilter]; simpa using hu)
        refine ⟨e', ?_⟩
        have harith : st.nCreate + (i + 1) = st.nCreate + 1 + i := by omega
        rw [harith] at he'
        exact he'
      rw [ih _ h', hfilter]
      cases st
      simp only [Prod.mk.injEq, RunSt.mk.injEq, List.map_cons, List.length_cons,
        List.append_assoc, List.cons_append, List.nil_append, eq_self_iff_true,
        and_true, true_and]
      omega

lemma ttl_fallback_loop_first_success
    (P : Provider) (domain nm record_type ip : String) (ttl : Nat)
    (ttl_error : String) :
    ∀ (ts : List Nat) (st : RunSt) (l₁ : List Nat) (tstar : Nat)
      (l₂ : List Nat) (rec : DNSRecord),
      ts.filter (fun u => u ≠ ttl) = l₁ ++ tstar :: l₂ →
      (∀ i u, l₁.get? i = some u →
        ∃ e, P.createQ (st.nCreate + i) domain nm record_type ip u none
          = Except.error e) →
      P.createQ (st.nCreate + l₁.length) domain nm record_type ip tstar none
        = Except.ok rec →
      ttl_fallback_loop P st domain nm record_type ip ttl ttl_error ts
        = ({ st with
              nCreate := st.nCreate + l₁.length + 1
              trace := st.trace
                ++ l₁.map (fun u => Call.createRec domain nm record_type ip u none)
                ++ [Call.createRec domain nm record_type ip tstar none] },
           Except.ok ()) := by
  intro ts
  induction ts with
  | nil =>
    intro st l₁ tstar l₂ rec hsplit _ _
    simp at hsplit
  | cons t ts ih =>
    intro st l₁ tstar l₂ rec hsplit hfail hsucc
    by_cases ht : t = ttl
    · have hfilter : (t :: ts).filter (fun u => u ≠ ttl)
          = ts.filter (fun u => u ≠ ttl) := by
        simp [List.filter_cons, ht]
      rw [ttl_fallback_loop, if_neg (not_not.mpr ht)]
      rw [hfilter] at hsplit
      exact ih st l₁ tstar l₂ rec hsplit hfail hsucc
    · have hfilter : (t :: ts).filter (fun u => u ≠ ttl)
          = t :: ts.filter (fun u => u ≠ ttl) := by
        simp [List.filter_cons, ht]
      rw [hfilter] at hsplit
      cases l₁ with
      | nil =>
        obtain ⟨rfl, -⟩ : t = tstar ∧ ts.filter (fun u => u ≠ ttl) = l₂ := by
          simpa using hsplit
        have hsucc' : P.createQ st.nCreate domain nm record_type ip t none
            = Except.ok rec := by simpa using hsucc
        rw [ttl_fallback_loop, if_pos ht]
        simp only [create_dns_record, hsucc']
        cases st
        simp
      | cons u l₁' =>
        obtain ⟨rfl, hsplit'⟩ :
            t = u ∧ ts.filter (fun v => v ≠ ttl) = l₁' ++ tstar :: l₂ := by
          simpa using hsplit
        obtain ⟨e, he⟩ := hfail 0 t rfl
        rw [Nat.add_zero] at he
        rw [ttl_fallback_loop, if_pos ht]
        simp only [create_dns_record, he]
        have hfail' : ∀ i v, l₁'.get? i = some v →
            ∃ e, P.createQ (st.nCreate + 1 + i) domain nm record_type ip v none
              = Except.error e := by
          intro i v hv
          obtain ⟨e', he'⟩ := hfail (i + 1) v (by simpa using hv)
          refine ⟨e', ?_⟩
          have harith : st.nCreate + (i + 1) = st.nCreate + 1 + i := by omega
          rw [harith] at he'
          exact he'
        have hsucc' : P.createQ (st.nCreate + 1 + l₁'.length)
            domain nm record_type ip tstar none = Except.ok rec := by
          have harith : st.nCreate + (t :: l₁').length
              = st.nCreate + 1 + l₁'.length := by
            simp; omega
          rw [harith] at hsucc
          exact hsucc
        rw [ih _ l₁' tstar l₂ rec hsplit' hfail' hsucc']
        cases st
        simp only [Prod.mk.injEq, RunSt.mk.injEq, List.map_cons, List.length_cons,
          List.append_assoc, List.cons_append, List.nil_append, eq_self_iff_true,
          and_true, true_and]
        omega

/-- **C2 (amended).** When reconciliation finds no existing record and the
creation attempt fails (at the TTL inherited from the second listing, or
at the configured TTL when that listing is empty), the failure lands in
the handler for listing failures, which first re-attempts creation once at
the same TTL.  Then, whatever the provider answers: if the second attempt
succeeds the cycle succeeds with no fallback attempt; if it fails with an
error that is not TTL-related, that error is re-raised with no fallback
attempt; if it fails with a TTL-related error, creation is retried over
the fixed fallback list [3600, 1800, 7200, 300, 600] skipping exactly the
TTLs equal to the one already tried, stopping and succeeding at the first
attempt that succeeds — wherever in the list it occurs — and re-raising
the second attempt's error if every fallback attempt fails. -/
theorem update_or_create_ttl_fallback
    (P : Provider) (domain subdomain ip record_type nm : String)
    (ttl ttl' : Nat) (rs rs₂ : List DNSRecord) (e₁ : String)
    (hname : nm = if subdomain = "" then "@" else subdomain)
    (httl : ttl' = (match rs₂ with | [] => ttl | first :: _ => first.ttl))
    (hl0 : P.listQ 0 = Except.ok rs)
    (hf : find_dns_record rs domain subdomain record_type = none)
    (hl1 : P.listQ 1 = Except.ok rs₂)
    (hc0 : P.createQ 0 domain nm record_type ip ttl' none = Except.error e₁) :
    (∀ rec, P.createQ 1 domain nm record_type ip ttl' none = Except.ok rec →
      update_or_create_dns_record P RunSt.init domain subdomain ip record_type ttl
        = (⟨2, 2, 0,
            [Call.listRecs domain, Call.listRecs domain,
             Call.createRec domain nm record_type ip ttl' none,
             Call.createRec domain nm record_type ip ttl' none]⟩,
           Except.ok ())) ∧
    (∀ e₂, P.createQ 1 domain nm record_type ip ttl' none = Except.error e₂ →
      mentionsTTL e₂ = false →
      update_or_create_dns_record P RunSt.init domain subdomain ip record_type ttl
        = (⟨2, 2, 0,
            [Call.listRecs domain, Call.listRecs domain,
             Call.createRec domain nm record_type ip ttl' none,
             Call.createRec domain nm record_type ip ttl' none]⟩,
           Except.error e₂)) ∧
    (∀ e₂, P.createQ 1 domain nm record_type ip ttl' none = Except.error e₂ →
      mentionsTTL e₂ = true →
      (∀ i t, (common_ttls.filter (fun u => u ≠ ttl')).get? i = some t →
        ∃ e, P.createQ (2 + i) domain nm record_type ip t none
          = Except.error e) →
      update_or_create_dns_record P RunSt.init domain subdomain ip record_type ttl
        = (⟨2, 2 + (common_ttls.filter (fun u => u ≠ ttl')).length, 0,
            [Call.listRecs domain, Call.listRecs domain,
             Call.createRec domain nm record_type ip ttl' none,
             Call.createRec domain nm record_type ip ttl' none]
            ++ (common_ttls.filter (fun u => u ≠ ttl')).map
              (fun u => Call.createRec domain nm record_type ip u none)⟩,
           Except.error e₂)) ∧
    (∀ e₂ l₁ tstar l₂ rec,
      P.createQ 1 domain nm record_type ip ttl' none = Except.error e₂ →
      mentionsTTL e₂ = true →
      common_ttls.filter (fun u => u ≠ ttl') = l₁ ++ tstar :: l₂ →
      (∀ i t, l₁.get? i = some t →
        ∃ e, P.createQ (2 + i) domain nm record_type ip t none
          = Except.error e) →
      P.createQ (2 + l₁.length) domain nm record_type ip tstar none
        = Except.ok rec →
      update_or_create_dns_record P RunSt.init domain subdomain ip record_type ttl
        = (⟨2, 2 + l₁.length + 1, 0,
            [Call.listRecs domain, Call.listRecs domain,
             Call.createRec domain nm record_type ip ttl' none,
             Call.createRec domain nm record_type ip ttl' none]
            ++ l₁.map (fun u => Call.createRec domain nm record_type ip u none)
            ++ [Call.createRec domain nm record_type ip tstar none]⟩,
           Except.ok ())) := by
  subst hname
  have hbase : update_or_create_dns_record P RunSt.init
      domain subdomain ip record_type ttl
      = create_with_ttl_retry P
          ⟨2, 1, 0,
           [Call.listRecs domain, Call.listRecs domain,
            Call.createRec domain (if subdomain = "" then "@" else subdomain)
              record_type ip ttl' none]⟩
          domain (if subdomain = "" then "@" else subdomain)
          record_type ip ttl' := by
    cases rs₂ with
    | nil =>
      simp only [] at httl
      subst httl
      simp [update_or_create_dns_record, list_dns_records, RunSt.init, hl0, hf,
        hl1, create_dns_record, hc0]
    | cons first rest =>
      simp only [] at httl
      subst httl
      simp [update_or_create_dns_record, list_dns_records, RunSt.init, hl0, hf,
        hl1, create_dns_record, hc0]
  refine ⟨?_, ?_, ?_, ?_⟩
  · intro rec h1
    rw [hbase]
    simp [create_with_ttl_retry, create_dns_record, h1]
  · intro e₂ h2 hTTL
    rw [hbase]
    simp [create_with_ttl_retry, create_dns_record, h2, hTTL]
  · intro e₂ h2 hTTL hall
    rw [hbase]
    simp only [create_with_ttl_retry, create_dns_record, h2, hTTL, if_pos]
    exact ttl_fallback_loop_all_fail P domain _ record_type ip ttl' e₂
      common_ttls ⟨2, 2, 0,
        [Call.listRecs domain, Call.listRecs domain,
         Call.createRec domain (if subdomain = "" then "@" else subdomain)
           record_type ip ttl' none,
         Call.createRec domain (if subdomain = "" then "@" else subdomain)
           record_type ip ttl' none]⟩ hall
  · intro e₂ l₁ tstar l₂ rec h2 hTTL hsplit hfail hsucc
    rw [hbase]
    simp only [create_with_ttl_retry, create_dns_record, h2, hTTL, if_pos]
    exact ttl_fallback_loop_first_success P domain _ record_type ip ttl' e₂
      common_ttls ⟨2, 2, 0,
        [Call.listRecs domain, Call.listRecs domain,
         Call.createRec domain (if subdomain = "" then "@" else subdomain)
           record_type ip ttl' none,
         Call.createRec domain (if subdomain = "" then "@" else subdomain)
           record_type ip ttl' none]⟩ l₁ tstar l₂ rec hsplit hfail hsucc

/-- Witness for the amended C2.  At `ttlRejectingProvider` (TTL-related
rejection at 300, success at 3600) the fallback stops at its first entry;
at `ttlAlwaysRejectingProvider` every fallback fails, the creates are
issued exactly for [3600, 1800, 7200, 600] — 300 is skipped — and the
second attempt's error is re-raised. -/
theorem update_or_create_ttl_fallback_witness :
    (update_or_create_dns_record ttlRejectingProvider RunSt.init
        "example.com" "www" "1.2.3.4" "A" 300
      = (⟨2, 3, 0,
          [Call.listRecs "example.com", Call.listRecs "example.com",
           Call.createRec "example.com" "www" "A" "1.2.3.4" 300 none,
           Call.createRec "example.com" "www" "A" "1.2.3.4" 300 none,
           Call.createRec "example.com" "www" "A" "1.2.3.4" 3600 none]⟩,
         Except.ok ())) ∧
    (update_or_create_dns_record ttlAlwaysRejectingProvider RunSt.init
        "example.com" "www" "1.2.3.4" "A" 300
      = (⟨2, 6, 0,
          [Call.listRecs "example.com", Call.listRecs "example.com",
           Call.createRec "example.com" "www" "A" "1.2.3.4" 300 none,
           Call.createRec "example.com" "www" "A" "1.2.3.4" 300 none,
           Call.createRec "example.com" "www" "A" "1.2.3.4" 3600 none,
           Call.createRec "example.com" "www" "A" "1.2.3.4" 1800 none,
           Call.createRec "example.com" "www" "A" "1.2.3.4" 7200 none,
           Call.createRec "example.com" "www" "A" "1.2.3.4" 600 none]⟩,
         Except.error "Invalid TTL value")) := by
  constructor
  · exact (update_or_create_ttl_fallback ttlRejectingProvider "example.com"
      "www" "1.2.3.4" "A" "www" 300 300 [] [] "Invalid TTL value"
      (by decide) rfl rfl rfl rfl rfl).2.2.2
      "Invalid TTL value" [] 3600 [1800, 7200, 600]
      ⟨"new", "A", "www", "1.2.3.4", 3600, none⟩
      rfl (by decide) (by decide) (fun i t hu => by simp at hu) rfl
  · exact (update_or_create_ttl_fallback ttlAlwaysRejectingProvider
      "example.com" "www" "1.2.3.4" "A" "www" 300 300 [] [] "Invalid TTL value"
      (by decide) rfl rfl rfl rfl rfl).2.2.1
      "Invalid TTL value" rfl (by decide)
      (fun i t _ => ⟨"Invalid TTL value", rfl⟩)

lemma update_single_domain_target (P : Provider) (st : RunSt)
    (dc : DomainConfig) (ip : String) :
    (update_single_domain P st dc ip).2.domain = dc.domain ∧
    (update_single_domain P st dc ip).2.subdomain = dc.subdomain := by
  unfold update_single_domain
  rw [list_dns_records]
  cases P.listQ st.nList with
  | error e => simp
  | ok records =>
    simp only []
    generalize update_or_create_dns_record P _ dc.domain dc.subdomain ip
      dc.record_type dc.ttl = out
    rcases out with ⟨st₂, res⟩
    cases res <;> simp

lemma update_all_domains_spec (P : Provider) (ip : String) :
    ∀ (domains : List DomainConfig) (st : RunSt) (history : List DNSUpdateResult),
      (update_all_domains P st domains ip history).2.2
        = history ++ (update_all_domains P st domains ip history).2.1 ∧
      (update_all_domains P st domains ip history).2.1.length = domains.length ∧
      (update_all_domains P st domains ip history).2.1.map
          (fun res => (res.domain, res.subdomain))
        = domains.map (fun dc => (dc.domain, dc.subdomain)) := by
  intro domains
  induction domains with
  | nil => intro st history; simp [update_all_domains]
  | cons dc rest ih =>
    intro st history
    have htarget := update_single_domain_target P st dc ip
    unfold update_all_domains
    rcases hone : update_single_domain P st dc ip with ⟨st₁, result⟩
    obtain ⟨hhist, hlen, hmap⟩ := ih st₁ (history ++ [result])
    rcases hall : update_all_domains P st₁ rest ip (history ++ [result]) with
      ⟨st₂, results, history'⟩
    rw [hone] at htarget
    rw [hall] at hhist hlen hmap
    simp only [hall]
    refine ⟨by simpa using hhist, by simpa using hlen, ?_⟩
    simp only at htarget
    simp [htarget.1, htarget.2, hmap]

/-- Counterexample to C3 as stated.  With the resolver returning no
address, `check_and_update` returns `true` — it does not report failure as
the claim asserts (it does make no provider calls and leaves the
last-known address unchanged). -/
theorem check_and_update_resolution_failure_cex :
    ¬ ((check_and_update ttlRejectingProvider RunSt.init
        { current_ip := some "9.9.9.9" } [⟨"example.com", "www", "A", 300⟩]
        none 7 []).ok = false) := by
  decide

/-- **C3 (amended).** Whenever the resolver returns no address,
`check_and_update` treats the cycle as a no-op and reports success
(returns `true`), issues no provider call (the client state, hence its
trace, is unchanged), leaves the update history unchanged, and leaves the
last-known address — indeed every monitor field except the last-check
time — unchanged. -/
theorem check_and_update_resolution_failure
    (P : Provider) (st : RunSt) (m : Monitor) (domains : List DomainConfig)
    (now : Nat) (history : List DNSUpdateResult) :
    check_and_update P st m domains none now history
      = ⟨st, { m with last_check := some now }, history, true⟩ := by
  simp [check_and_update, check_ip_change]

/-- **C4.** In a cycle that performs updates (resolution succeeded with a
truthy address and a change or first run was detected), `check_and_update`
returns `true` exactly when every per-target outcome of that cycle
succeeded — some-but-not-all successes and zero successes both yield
`false` — and the monitor's last-update timestamp advances to the cycle's
time exactly when all targets succeeded, staying unchanged otherwise. -/
theorem check_and_update_success_iff_all
    (P : Provider) (m : Monitor) (domains : List DomainConfig) (ip : String)
    (now : Nat) (history : List DNSUpdateResult)
    (hip : ip ≠ "") (hchange : m.current_ip ≠ some ip) :
    ((check_and_update P RunSt.init m domains (some ip) now history).ok = true ↔
      ∀ res ∈ (update_all_domains P RunSt.init domains ip history).2.1,
        res.success = true) ∧
    (check_and_update P RunSt.init m domains (some ip) now history).monitor.last_update
      = (if ∀ res ∈ (update_all_domains P RunSt.init domains ip history).2.1,
            res.success = true
         then some now else m.last_update) ∧
    (check_and_update P RunSt.init m domains (some ip) now history).history
      = history ++ (update_all_domains P RunSt.init domains ip history).2.1 := by
  have hhist := (update_all_domains_spec P ip domains RunSt.init history).1
  have hstep : check_ip_change m (some ip) now
      = ({ m with last_check := some now, current_ip := some ip }, true, some ip) := by
    cases hcur : m.current_ip with
    | none => simp [check_ip_change, hcur]
    | some cur =>
      have : ip ≠ cur := fun h => hchange (by rw [hcur, h])
      simp [check_ip_change, hcur, this]
  unfold check_and_update
  rw [hstep]
  simp only [hip, if_pos, ne_eq, not_false_iff]
  rcases hall : update_all_domains P RunSt.init domains ip history with
    ⟨st', results, history'⟩
  rw [hall] at hhist
  simp only at hhist ⊢
  by_cases hsucc : ∀ res ∈ results, res.success = true
  · have hcount : results.countP (fun r => r.success) = results.length :=
      List.countP_eq_length.mpr (fun a ha => hsucc a ha)
    simp [hip, hcount, hhist]
    exact ⟨hsucc, by rw [if_pos hsucc]⟩
  · have hcount : results.countP (fun r => r.success) ≠ results.length := by
      intro h
      exact hsucc (fun a ha => List.countP_eq_length.mp h a ha)
    simp [hip, hcount, hsucc, hhist]

/-- Witness for C4: one configured target whose reconciliation fails
(listing errors), so the cycle returns `false` and `last_update` stays
`none`. -/
theorem check_and_update_success_iff_all_witness :
    (((check_and_update ⟨fun _ => Except.error "boom",
          fun _ _ _ _ _ _ _ => Except.error "boom",
          fun _ _ _ _ _ _ _ => Except.error "boom"⟩ RunSt.init
        { current_ip := some "9.9.9.9" } [⟨"example.com", "www", "A", 300⟩]
        (some "1.2.3.4") 7 []).ok = true ↔
      ∀ res ∈ (update_all_domains ⟨fun _ => Except.error "boom",
          fun _ _ _ _ _ _ _ => Except.error "boom",
          fun _ _ _ _ _ _ _ => Except.error "boom"⟩ RunSt.init
        [⟨"example.com", "www", "A", 300⟩] "1.2.3.4" []).2.1,
        res.success = true)) ∧
    (check_and_update ⟨fun _ => Except.error "boom",
          fun _ _ _ _ _ _ _ => Except.error "boom",
          fun _ _ _ _ _ _ _ => Except.error "boom"⟩ RunSt.init
        { current_ip := some "9.9.9.9" } [⟨"example.com", "www", "A", 300⟩]
        (some "1.2.3.4") 7 []).monitor.last_update
      = (if ∀ res ∈ (update_all_domains ⟨fun _ => Except.error "boom",
            fun _ _ _ _ _ _ _ => Except.error "boom",
            fun _ _ _ _ _ _ _ => Except.error "boom"⟩ RunSt.init
          [⟨"example.com", "www", "A", 300⟩] "1.2.3.4" []).2.1,
            res.success = true
         then some 7 else none) ∧
    (check_and_update ⟨fun _ => Except.error "boom",
          fun _ _ _ _ _ _ _ => Except.error "boom",
          fun _ _ _ _ _ _ _ => Except.error "boom"⟩ RunSt.init
        { current_ip := some "9.9.9.9" } [⟨"example.com", "www", "A", 300⟩]
        (some "1.2.3.4") 7 []).history
      = [] ++ (update_all_domains ⟨fun _ => Except.error "boom",
          fun _ _ _ _ _ _ _ => Except.error "boom",
          fun _ _ _ _ _ _ _ => Except.error "boom"⟩ RunSt.init
        [⟨"example.com", "www", "A", 300⟩] "1.2.3.4" []).2.1 :=
  check_and_update_success_iff_all _
    { current_ip := some "9.9.9.9" } [⟨"example.com", "www", "A", 300⟩]
    "1.2.3.4" 7 [] (by decide) (by decide)

/-- **C10.** The last-known address is advanced at change-detection time,
before any provider call: in a cycle where resolution succeeds with a
truthy address and a change (or first run) is detected, the resulting
monitor already stores the new address no matter how the target updates
fared; consequently a following cycle that resolves the same address is a
no-op reporting success — it issues no provider call and leaves monitor
(bar the check time) and history unchanged — so failed updates are not
retried. -/
theorem check_and_update_advances_ip_first
    (P : Provider) (m : Monitor) (domains : List DomainConfig) (ip : String)
    (now : Nat) (history : List DNSUpdateResult)
    (hip : ip ≠ "") (hchange : m.current_ip ≠ some ip) :
    (check_and_update P RunSt.init m domains (some ip) now history).monitor.current_ip
      = some ip ∧
    ∀ (P₂ : Provider) (now₂ : Nat),
      check_and_update P₂ RunSt.init
          (check_and_update P RunSt.init m domains (some ip) now history).monitor
          domains (some ip) now₂
          (check_and_update P RunSt.init m domains (some ip) now history).history
        = ⟨RunSt.init,
           { (check_and_update P RunSt.init m domains (some ip) now history).monitor
               with last_check := some now₂ },
           (check_and_update P RunSt.init m domains (some ip) now history).history,
           true⟩ := by
  have hstep : check_ip_change m (some ip) now
      = ({ m with last_check := some now, current_ip := some ip }, true, some ip) := by
    cases hcur : m.current_ip with
    | none => simp [check_ip_change, hcur]
    | some cur =>
      have : ip ≠ cur := fun h => hchange (by rw [hcur, h])
      simp [check_ip_change, hcur, this]
  have hcur : (check_and_update P RunSt.init m domains (some ip) now
      history).monitor.current_ip = some ip := by
    unfold check_and_update
    rw [hstep]
    simp only [hip, ne_eq, not_false_iff, if_pos]
    rcases update_all_domains P RunSt.init domains ip history with ⟨st', results, history'⟩
    by_cases hc : results.countP (fun r => r.success) = results.length <;>
      simp [hc]
  refine ⟨hcur, ?_⟩
  intro P₂ now₂
  set out := check_and_update P RunSt.init m domains (some ip) now history
  simp [check_and_update, check_ip_change, hcur]

/-- Witness for C10: the single target's update fails, yet the monitor
stores the new address and the follow-up cycle is a successful no-op. -/
theorem check_and_update_advances_ip_first_witness :
    (check_and_update ⟨fun _ => Except.error "boom",
        fun _ _ _ _ _ _ _ => Except.error "boom",
        fun _ _ _ _ _ _ _ => Except.error "boom"⟩ RunSt.init
        { current_ip := some "9.9.9.9" } [⟨"example.com", "www", "A", 300⟩]
        (some "1.2.3.4") 7 []).monitor.current_ip = some "1.2.3.4" ∧
    check_and_update ttlRejectingProvider RunSt.init
        (check_and_update ⟨fun _ => Except.error "boom",
          fun _ _ _ _ _ _ _ => Except.error "boom",
          fun _ _ _ _ _ _ _ => Except.error "boom"⟩ RunSt.init
          { current_ip := some "9.9.9.9" } [⟨"example.com", "www", "A", 300⟩]
          (some "1.2.3.4") 7 []).monitor
        [⟨"example.com", "www", "A", 300⟩] (some "1.2.3.4") 8
        (check_and_update ⟨fun _ => Except.error "boom",
          fun _ _ _ _ _ _ _ => Except.error "boom",
          fun _ _ _ _ _ _ _ => Except.error "boom"⟩ RunSt.init
          { current_ip := some "9.9.9.9" } [⟨"example.com", "www", "A", 300⟩]
          (some "1.2.3.4") 7 []).history
      = ⟨RunSt.init,
         { (check_and_update ⟨fun _ => Except.error "boom",
             fun _ _ _ _ _ _ _ => Except.error "boom",
             fun _ _ _ _ _ _ _ => Except.error "boom"⟩ RunSt.init
             { current_ip := some "9.9.9.9" } [⟨"example.com", "www", "A", 300⟩]
             (some "1.2.3.4") 7 []).monitor with last_check := some 8 },
         (check_and_update ⟨fun _ => Except.error "boom",
           fun _ _ _ _ _ _ _ => Except.error "boom",
           fun _ _ _ _ _ _ _ => Except.error "boom"⟩ RunSt.init
           { current_ip := some "9.9.9.9" } [⟨"example.com", "www", "A", 300⟩]
           (some "1.2.3.4") 7 []).history,
         true⟩ := by
  have h := check_and_update_advances_ip_first
    ⟨fun _ => Except.error "boom",
     fun _ _ _ _ _ _ _ => Except.error "boom",
     fun _ _ _ _ _ _ _ => Except.error "boom"⟩
    { current_ip := some "9.9.9.9" } [⟨"example.com", "www", "A", 300⟩]
    "1.2.3.4" 7 [] (by decide) (by decide)
  exact ⟨h.1, h.2 ttlRejectingProvider 8⟩

/-- **C9.** A provider error while reconciling one target does not abort
the remaining targets: `update_all_domains` always yields exactly one
outcome per configured target in configuration order; and in a cycle with
two targets where the first update succeeds and the second raises a
provider error, `check_and_update` returns `false` while the first
target's successful outcome is preserved in the recorded history. -/
theorem provider_error_does_not_abort
    (P : Provider) (m : Monitor) (d₁ d₂ : DomainConfig) (ip : String)
    (now : Nat) (history : List DNSUpdateResult)
    (rs : List DNSRecord) (r : DNSRecord) (e : String)
    (hip : ip ≠ "") (hchange : m.current_ip ≠ some ip)
    (hl0 : P.listQ 0 = Except.ok rs) (hl1 : P.listQ 1 = Except.ok rs)
    (hfind : find_dns_record rs d₁.domain d₁.subdomain d₁.record_type = some r)
    (hne : r.data ≠ ip)
    (hupd : P.updateQ 0 d₁.domain r.id (some ip) none none none = Except.ok ())
    (hl2 : P.listQ 2 = Except.error e) :
    (∀ (Q : Provider) (st : RunSt) (ds : List DomainConfig) (ip' : String)
        (h : List DNSUpdateResult),
      (update_all_domains Q st ds ip' h).2.1.length = ds.length ∧
      (update_all_domains Q st ds ip' h).2.1.map
          (fun res => (res.domain, res.subdomain))
        = ds.map (fun dc => (dc.domain, dc.subdomain))) ∧
    (check_and_update P RunSt.init m [d₁, d₂] (some ip) now history).ok = false ∧
    (check_and_update P RunSt.init m [d₁, d₂] (some ip) now history).history
      = history ++ [⟨d₁.domain, d₁.subdomain, true, some r.data, some ip, none⟩,
                    ⟨d₂.domain, d₂.subdomain, false, none, none, some e⟩] := by
  have hgen : ∀ (Q : Provider) (st : RunSt) (ds : List DomainConfig)
      (ip' : String) (h : List DNSUpdateResult),
      (update_all_domains Q st ds ip' h).2.1.length = ds.length ∧
      (update_all_domains Q st ds ip' h).2.1.map
          (fun res => (res.domain, res.subdomain))
        = ds.map (fun dc => (dc.domain, dc.subdomain)) := by
    intro Q st ds ip' h
    exact ⟨(update_all_domains_spec Q ip' ds st h).2.1,
      (update_all_domains_spec Q ip' ds st h).2.2⟩
  have hone : update_single_domain P RunSt.init d₁ ip
      = (⟨2, 0, 1, [Call.listRecs d₁.domain, Call.listRecs d₁.domain,
            Call.updateRec d₁.domain r.id (some ip) none none none]⟩,
         ⟨d₁.domain, d₁.subdomain, true, some r.data, some ip, none⟩) := by
    simp [update_single_domain, list_dns_records, RunSt.init, hl0, hfind,
      update_or_create_dns_record, hl1, hne, update_dns_record, hupd]
  have htwo : ∀ st : RunSt, st.nList = 2 →
      update_single_domain P st d₂ ip
        = ({ st with nList := 3, trace := st.trace ++ [Call.listRecs d₂.domain] },
           ⟨d₂.domain, d₂.subdomain, false, none, none, some e⟩) := by
    intro st hst
    simp [update_single_domain, list_dns_records, hst, hl2]
  have hrun : update_all_domains P RunSt.init [d₁, d₂] ip history
      = (⟨3, 0, 1, [Call.listRecs d₁.domain, Call.listRecs d₁.domain,
            Call.updateRec d₁.domain r.id (some ip) none none none,
            Call.listRecs d₂.domain]⟩,
         [⟨d₁.domain, d₁.subdomain, true, some r.data, some ip, none⟩,
          ⟨d₂.domain, d₂.subdomain, false, none, none, some e⟩],
         history ++ [⟨d₁.domain, d₁.subdomain, true, some r.data, some ip, none⟩,
          ⟨d₂.domain, d₂.subdomain, false, none, none, some e⟩]) := by
    have h2 := htwo ⟨2, 0, 1, [Call.listRecs d₁.domain, Call.listRecs d₁.domain,
        Call.updateRec d₁.domain r.id (some ip) none none none]⟩ rfl
    simp [update_all_domains, hone, h2]
  have hstep : check_ip_change m (some ip) now
      = ({ m with last_check := some now, current_ip := some ip }, true, some ip) := by
    cases hcur : m.current_ip with
    | none => simp [check_ip_change, hcur]
    | some cur =>
      have : ip ≠ cur := fun h => hchange (by rw [hcur, h])
      simp [check_ip_change, hcur, this]
  refine ⟨hgen, ?_, ?_⟩ <;>
  · unfold check_and_update
    rw [hstep]
    simp [hip, hrun]

/-- Witness for C9 with two concrete targets: the provider answers the
first target's calls successfully and fails the second target's listing. -/
theorem provider_error_does_not_abort_witness :
    ((update_all_domains ⟨fun n => if n ≤ 1
          then Except.ok [⟨"r1", "A", "www", "9.9.9.9", 300, none⟩]
          else Except.error "HTTP 500",
        fun _ _ _ _ _ _ _ => Except.error "HTTP 500",
        fun _ _ _ _ _ _ _ => Except.ok ()⟩ RunSt.init
        [⟨"example.com", "www", "A", 300⟩, ⟨"other.com", "www", "A", 300⟩]
        "1.2.3.4" []).2.1.length = 2) ∧
    (check_and_update ⟨fun n => if n ≤ 1
          then Except.ok [⟨"r1", "A", "www", "9.9.9.9", 300, none⟩]
          else Except.error "HTTP 500",
        fun _ _ _ _ _ _ _ => Except.error "HTTP 500",
        fun _ _ _ _ _ _ _ => Except.ok ()⟩ RunSt.init
        { current_ip := some "9.9.9.9" }
        [⟨"example.com", "www", "A", 300⟩, ⟨"other.com", "www", "A", 300⟩]
        (some "1.2.3.4") 7 []).ok = false ∧
    (check_and_update ⟨fun n => if n ≤ 1
          then Except.ok [⟨"r1", "A", "www", "9.9.9.9", 300, none⟩]
          else Except.error "HTTP 500",
        fun _ _ _ _ _ _ _ => Except.error "HTTP 500",
        fun _ _ _ _ _ _ _ => Except.ok ()⟩ RunSt.init
        { current_ip := some "9.9.9.9" }
        [⟨"example.com", "www", "A", 300⟩, ⟨"other.com", "www", "A", 300⟩]
        (some "1.2.3.4") 7 []).history
      = [] ++ [⟨"example.com", "www", true, some "9.9.9.9", some "1.2.3.4", none⟩,
               ⟨"other.com", "www", false, none, none, some "HTTP 500"⟩] := by
  have h := provider_error_does_not_abort
    ⟨fun n => if n ≤ 1
        then Except.ok [⟨"r1", "A", "www", "9.9.9.9", 300, none⟩]
        else Except.error "HTTP 500",
      fun _ _ _ _ _ _ _ => Except.error "HTTP 500",
      fun _ _ _ _ _ _ _ => Except.ok ()⟩
    { current_ip := some "9.9.9.9" }
    ⟨"example.com", "www", "A", 300⟩ ⟨"other.com", "www", "A", 300⟩
    "1.2.3.4" 7 []
    [⟨"r1", "A", "www", "9.9.9.9", 300, none⟩]
    ⟨"r1", "A", "www", "9.9.9.9", 300, none⟩ "HTTP 500"
    (by decide) (by decide) rfl rfl (by decide) (by decide) rfl rfl
  exact ⟨(h.1 _ RunSt.init
      [⟨"example.com", "www", "A", 300⟩, ⟨"other.com", "www", "A", 300⟩]
      "1.2.3.4" []).1, h.2.1, h.2.2⟩

lemma octet_loop_true_iff : ∀ ps : List String,
    ((match octet_loop ps with | some b => b | none => false) = true ↔
      ∀ p ∈ ps, ∃ n : Int, pyInt p = some n ∧ 0 ≤ n ∧ n ≤ 255) := by
  intro ps
  induction ps with
  | nil => simp [octet_loop]
  | cons p ps ih =>
    cases hp : pyInt p with
    | none =>
      simp only [octet_loop, hp]
      constructor
      · intro h; cases h
      · intro h
        obtain ⟨n, hn, _⟩ := h p (List.mem_cons_self p ps)
        rw [hp] at hn; cases hn
    | some num =>
      rcases Decidable.em (num < 0 ∨ 255 < num) with hbad | hgood
      · simp only [octet_loop, hp, if_pos hbad]
        constructor
        · intro h; cases h
        · intro h
          obtain ⟨n, hn, h0, h255⟩ := h p (List.mem_cons_self p ps)
          rw [hp] at hn
          obtain rfl : num = n := Option.some.inj hn
          rcases hbad with hb | hb
          · omega
          · omega
      · push_neg at hgood
        have hgood' : ¬ (num < 0 ∨ 255 < num) := by omega
        simp only [octet_loop, hp, if_neg hgood']
        rw [ih]
        constructor
        · intro h q hq
          rcases List.mem_cons.mp hq with rfl | hmem
          · exact ⟨num, hp, by omega, by omega⟩
          · exact h q hmem
        · intro h q hq; exact h q (List.mem_cons_of_mem p hq)

/-- Counterexample to C6 as stated.  The IPv4-mapped IPv6 address
`::ffff:1.2.3.4` parses under standard IPv6 presentation rules, yet the
validator rejects it: the string splits on dots into exactly four parts,
so the code takes the IPv4 path, `int("::ffff:1")` raises, and the IPv6
branch is never consulted.  Hence "accepts iff IPv4 or IPv6" is false. -/
theorem validate_ip_rejects_mapped_ipv6_cex :
    validate_ip "::ffff:1.2.3.4" = false ∧
    inet_pton6 "::ffff:1.2.3.4" = true ∧
    isIPv4Spec "::ffff:1.2.3.4" = false ∧
    ¬ (validate_ip "::ffff:1.2.3.4"
        = (isIPv4Spec "::ffff:1.2.3.4" || inet_pton6 "::ffff:1.2.3.4")) := by
  decide

/-- **C6 (amended).** The validator accepts a string iff either it splits
on "." into exactly four parts each of which parses as a Python integer
in [0,255] (so signs, surrounding whitespace, underscore digit separators
and leading zeros are tolerated), or it does not split into four parts and
it parses as an IPv6 address; in particular an IPv6 address containing
exactly three dots, such as an IPv4-mapped address, is rejected. -/
theorem validate_ip_characterization (s : String) :
    validate_ip s = true ↔
      (((pySplitDots s).length = 4 ∧
        ∀ p ∈ pySplitDots s, ∃ n : Int, pyInt p = some n ∧ 0 ≤ n ∧ n ≤ 255) ∨
       ((pySplitDots s).length ≠ 4 ∧ inet_pton6 s = true)) := by
  by_cases hlen : (pySplitDots s).length = 4
  · have hval : validate_ip s
        = (match octet_loop (pySplitDots s) with | some b => b | none => false) := by
      simp only [validate_ip]
      rw [if_pos hlen]
    rw [hval, octet_loop_true_iff]
    constructor
    · intro h; exact Or.inl ⟨hlen, h⟩
    · rintro (⟨_, h⟩ | ⟨hne, _⟩)
      · exact h
      · exact absurd hlen hne
  · have hval : validate_ip s = inet_pton6 s := by
      simp only [validate_ip]
      rw [if_neg hlen]
    rw [hval]
    constructor
    · intro h; exact Or.inr ⟨hlen, h⟩
    · rintro (⟨h4, _⟩ | ⟨_, h⟩)
      · exact absurd h4 hlen
      · exact h

end VultrDDNS
